import Mathlib

/-!
Shallow embedding of the parameter-space engine of
`src/window_display_mcp/server.py` (waveform generation, trajectory
interpolation, keyframe sampling, nearest-neighbor vocabulary mapping and
state distance), together with theorems settling the specification claims.

Real-valued Python float arithmetic is modelled over `ℝ`; Python dicts used
as coordinate mappings are modelled either as total functions `String → ℝ`
(for the always-complete canonical states) or as association lists
`List (String × ℝ)` (for inputs that may omit axes, where the code uses
`dict.get(key, 0.5)`).
-/

namespace WindowDisplay

/-- Python `round(x, 4)`: rounding to 4 decimal digits, modelled with the
integer rounding function of `ℝ`. -/
noncomputable def round4 (x : ℝ) : ℝ := ((round (x * 10000) : ℤ) : ℝ) / 10000

lemma round4_zero : round4 0 = 0 := by
  simp [round4]

/-- `DISPLAY_PARAMETER_NAMES` (server.py line 602): the five axes, in fixed
order. -/
def DISPLAY_PARAMETER_NAMES : List String :=
  ["compositional_tension", "depth_complexity", "lighting_drama",
   "viewing_intimacy", "negative_space_ratio"]

/-- One scalar of `_generate_oscillation` (server.py lines 816-832): the value
appended for loop index `i`.  `t = 2π·num_cycles·i/num_steps`; Python
`t/(2π) % 1.0` is the fractional part `Int.fract`.  Unrecognized patterns
fall through to the final `else` branch, which yields `0.5`. -/
noncomputable def oscillationValue (numSteps : ℤ) (numCycles : ℝ)
    (pattern : String) (i : ℕ) : ℝ :=
  if pattern = "sinusoidal" then
    0.5 * (1 + Real.sin (2 * Real.pi * numCycles * i / numSteps))
  else if pattern = "triangular" then
    (if Int.fract (2 * Real.pi * numCycles * i / numSteps / (2 * Real.pi)) < 0.5
     then 2 * Int.fract (2 * Real.pi * numCycles * i / numSteps / (2 * Real.pi))
     else 2 * (1 - Int.fract (2 * Real.pi * numCycles * i / numSteps / (2 * Real.pi))))
  else if pattern = "square" then
    (if Int.fract (2 * Real.pi * numCycles * i / numSteps / (2 * Real.pi)) < 0.5
     then 0.0 else 1.0)
  else 0.5

/-- `_generate_oscillation(num_steps, num_cycles, pattern)` (server.py lines
816-832).  Python `range(num_steps)` is empty for `num_steps ≤ 0`, hence
`Int.toNat`. -/
noncomputable def _generate_oscillation (numSteps : ℤ) (numCycles : ℝ)
    (pattern : String) : List ℝ :=
  (List.range numSteps.toNat).map (oscillationValue numSteps numCycles pattern)

lemma oscillationValue_mem_unitInterval (numSteps : ℤ) (numCycles : ℝ)
    (pattern : String) (i : ℕ) :
    0 ≤ oscillationValue numSteps numCycles pattern i ∧
      oscillationValue numSteps numCycles pattern i ≤ 1 := by
  unfold oscillationValue
  by_cases h1 : pattern = "sinusoidal"
  · rw [if_pos h1]
    have hs1 := Real.sin_le_one (2 * Real.pi * numCycles * i / numSteps)
    have hs2 := Real.neg_one_le_sin (2 * Real.pi * numCycles * i / numSteps)
    constructor <;> nlinarith
  · rw [if_neg h1]
    by_cases h2 : pattern = "triangular"
    · rw [if_pos h2]
      set u := Int.fract (2 * Real.pi * numCycles * i / numSteps / (2 * Real.pi)) with hu
      have hu0 : 0 ≤ u := Int.fract_nonneg _
      have hu1 : u < 1 := Int.fract_lt_one _
      by_cases h3 : u < 0.5
      · rw [if_pos h3]
        norm_num at h3 ⊢
        constructor <;> nlinarith
      · rw [if_neg h3]
        norm_num at h3 ⊢
        constructor <;> nlinarith
    · rw [if_neg h2]
      by_cases h4 : pattern = "square"
      · rw [if_pos h4]
        by_cases h5 :
            Int.fract (2 * Real.pi * numCycles * i / numSteps / (2 * Real.pi)) < 0.5
        · rw [if_pos h5]; norm_num
        · rw [if_neg h5]; norm_num
      · rw [if_neg h4]; norm_num

/-- Claim C2: for every positive integer `total_steps` L, every positive
`num_cycles`, and every recognized pattern, `_generate_oscillation` returns an
ordered sequence of exactly L scalars, each lying in the closed interval
[0,1]. -/
theorem oscillation_length_and_range (L : ℤ) (c : ℝ) (pat : String)
    (hL : 1 ≤ L) (hc : 0 < c)
    (hpat : pat = "sinusoidal" ∨ pat = "triangular" ∨ pat = "square") :
    (_generate_oscillation L c pat).length = L.toNat ∧
      ∀ x ∈ _generate_oscillation L c pat, 0 ≤ x ∧ x ≤ 1 := by
  constructor
  · simp [_generate_oscillation]
  · intro x hx
    simp only [_generate_oscillation, List.mem_map, List.mem_range] at hx
    obtain ⟨i, _, rfl⟩ := hx
    exact oscillationValue_mem_unitInterval L c pat i

/-- Witness for C2 at `L = 3`, `c = 1`, sinusoidal pattern. -/
theorem oscillation_length_and_range_witness :
    (1 : ℤ) ≤ 3 ∧ (0 : ℝ) < 1 ∧
      ((_generate_oscillation 3 1 "sinusoidal").length = (3 : ℤ).toNat ∧
        ∀ x ∈ _generate_oscillation 3 1 "sinusoidal", 0 ≤ x ∧ x ≤ 1) :=
  ⟨by decide, by norm_num,
    oscillation_length_and_range 3 1 "sinusoidal" (by decide) (by norm_num)
      (Or.inl rfl)⟩

/-- Claim C1 counterexample: the generator does not fail on an unrecognized
pattern; at `pattern = "bogus"`, `num_steps = 3`, it silently substitutes the
default sequence of `0.5` values (server.py lines 829-830), contradicting
"fails with InvalidPattern ... never silently substituting a default
sequence". -/
theorem oscillation_invalid_pattern_counterexample :
    _generate_oscillation 3 1 "bogus" = [0.5, 0.5, 0.5] := rfl

/-- Claim C1, amended: for every pattern outside the three recognized values,
`_generate_oscillation` does not fail: it returns a constant default sequence
of `total_steps` values all equal to `0.5`. -/
theorem oscillation_invalid_pattern_default (L : ℤ) (c : ℝ) (pat : String)
    (h1 : pat ≠ "sinusoidal") (h2 : pat ≠ "triangular") (h3 : pat ≠ "square") :
    _generate_oscillation L c pat = List.replicate L.toNat (0.5 : ℝ) := by
  unfold _generate_oscillation oscillationValue
  rw [List.eq_replicate_iff]
  constructor
  · simp
  · intro x hx
    simp only [List.mem_map, List.mem_range] at hx
    obtain ⟨i, _, rfl⟩ := hx
    rw [if_neg h1, if_neg h2, if_neg h3]

/-- Witness for the amended C1 at pattern `"bogus"`. -/
theorem oscillation_invalid_pattern_default_witness :
    "bogus" ≠ "sinusoidal" ∧ "bogus" ≠ "triangular" ∧ "bogus" ≠ "square" ∧
      _generate_oscillation 3 1 "bogus" = List.replicate (3 : ℤ).toNat (0.5 : ℝ) :=
  ⟨by decide, by decide, by decide,
    oscillation_invalid_pattern_default 3 1 "bogus" (by decide) (by decide)
      (by decide)⟩

/-- Canonical state `luxury_isolation` (server.py lines 612-618). -/
noncomputable def luxury_isolation : String → ℝ := fun p =>
  if p = "compositional_tension" then 0.10
  else if p = "depth_complexity" then 0.40
  else if p = "lighting_drama" then 0.35
  else if p = "viewing_intimacy" then 0.85
  else if p = "negative_space_ratio" then 0.90
  else 0

/-- Canonical state `theatrical_drama` (server.py lines 619-625). -/
noncomputable def theatrical_drama : String → ℝ := fun p =>
  if p = "compositional_tension" then 0.55
  else if p = "depth_complexity" then 0.85
  else if p = "lighting_drama" then 0.90
  else if p = "viewing_intimacy" then 0.50
  else if p = "negative_space_ratio" then 0.40
  else 0

/-- Canonical state `abundance_wall` (server.py lines 626-632). -/
noncomputable def abundance_wall : String → ℝ := fun p =>
  if p = "compositional_tension" then 0.95
  else if p = "depth_complexity" then 0.10
  else if p = "lighting_drama" then 0.15
  else if p = "viewing_intimacy" then 0.20
  else if p = "negative_space_ratio" then 0.10
  else 0

/-- Canonical state `editorial_minimal` (server.py lines 633-639). -/
noncomputable def editorial_minimal : String → ℝ := fun p =>
  if p = "compositional_tension" then 0.15
  else if p = "depth_complexity" then 0.15
  else if p = "lighting_drama" then 0.50
  else if p = "viewing_intimacy" then 0.80
  else if p = "negative_space_ratio" then 0.85
  else 0

/-- Canonical state `immersive_spectacle` (server.py lines 640-646). -/
noncomputable def immersive_spectacle : String → ℝ := fun p =>
  if p = "compositional_tension" then 0.75
  else if p = "depth_complexity" then 0.95
  else if p = "lighting_drama" then 0.95
  else if p = "viewing_intimacy" then 0.45
  else if p = "negative_space_ratio" then 0.25
  else 0

/-- Canonical state `curated_collection` (server.py lines 647-653). -/
noncomputable def curated_collection : String → ℝ := fun p =>
  if p = "compositional_tension" then 0.45
  else if p = "depth_complexity" then 0.60
  else if p = "lighting_drama" then 0.35
  else if p = "viewing_intimacy" then 0.55
  else if p = "negative_space_ratio" then 0.55
  else 0

/-- Canonical state `narrative_journey` (server.py lines 654-660). -/
noncomputable def narrative_journey : String → ℝ := fun p =>
  if p = "compositional_tension" then 0.60
  else if p = "depth_complexity" then 0.70
  else if p = "lighting_drama" then 0.65
  else if p = "viewing_intimacy" then 0.50
  else if p = "negative_space_ratio" then 0.35
  else 0

/-- `DISPLAY_STATE_COORDINATES` (server.py lines 611-661), as an association
list in the source's insertion order. -/
noncomputable def DISPLAY_STATE_COORDINATES : List (String × (String → ℝ)) :=
  [("luxury_isolation", luxury_isolation),
   ("theatrical_drama", theatrical_drama),
   ("abundance_wall", abundance_wall),
   ("editorial_minimal", editorial_minimal),
   ("immersive_spectacle", immersive_spectacle),
   ("curated_collection", curated_collection),
   ("narrative_journey", narrative_journey)]

/-- One interpolated state of the trajectory loops (server.py lines 852-855
and 1010-1012): `state[p] = round(state_a[p]*(1-alpha) + state_b[p]*alpha, 4)`
for each axis `p`, in the fixed axis order. -/
noncomputable def interpVector (A B : String → ℝ) (alpha : ℝ) :
    List (String × ℝ) :=
  DISPLAY_PARAMETER_NAMES.map fun p => (p, round4 (A p * (1 - alpha) + B p * alpha))

/-- The interpolation loop over a waveform sequence (server.py lines 850-856,
1008-1017): one interpolated vector per waveform scalar, in order. -/
noncomputable def interpolateTrajectory (A B : String → ℝ) (alphas : List ℝ) :
    List (List (String × ℝ)) :=
  alphas.map (interpVector A B)

/-- Claim C3: for every pair of coordinate vectors A, B and every waveform
sequence of length L with each element in [0,1], the interpolator produces
exactly L coordinate vectors in which, for each of the five axes, the value is
`A[axis]*(1-alpha) + B[axis]*alpha` rounded to 4 decimal digits.  (Proved for
all waveform sequences, which subsumes those with elements in [0,1].) -/
theorem interpolation_pointwise (A B : String → ℝ) (alphas : List ℝ) :
    (interpolateTrajectory A B alphas).length = alphas.length ∧
      ∀ i (hi : i < alphas.length),
        (interpolateTrajectory A B alphas).get
            ⟨i, by simpa [interpolateTrajectory] using hi⟩ =
          DISPLAY_PARAMETER_NAMES.map fun p =>
            (p, round4 (A p * (1 - alphas.get ⟨i, hi⟩) + B p * alphas.get ⟨i, hi⟩)) := by
  constructor
  · simp [interpolateTrajectory]
  · intro i hi
    simp [interpolateTrajectory, interpVector]

/-- The per-axis signed differences of `compute_display_state_distance`
(server.py lines 1289-1293): `diff = b[p] - a[p]`, reported rounded to 4
decimals. -/
noncomputable def stateDiffs (a b : String → ℝ) : List (String × ℝ) :=
  DISPLAY_PARAMETER_NAMES.map fun p => (p, round4 (b p - a p))

/-- The Euclidean norm accumulated by `compute_display_state_distance`
(server.py lines 1290-1296): `sqrt` of the sum of squared unrounded
differences. -/
noncomputable def stateEuclid (a b : String → ℝ) : ℝ :=
  Real.sqrt ((DISPLAY_PARAMETER_NAMES.map fun p => (b p - a p) ^ 2).sum)

/-- `compute_display_state_distance(state_a_id, state_b_id)` (server.py lines
1264-1305): `none` models the unknown-state error return; on success the
reported rounded distance and per-axis differences. -/
noncomputable def compute_display_state_distance (aId bId : String) :
    Option (ℝ × List (String × ℝ)) :=
  match DISPLAY_STATE_COORDINATES.lookup aId, DISPLAY_STATE_COORDINATES.lookup bId with
  | some a, some b => some (round4 (stateEuclid a b), stateDiffs a b)
  | _, _ => none

lemma stateEuclid_comm (a b : String → ℝ) : stateEuclid a b = stateEuclid b a := by
  unfold stateEuclid
  have h : (fun p => (b p - a p) ^ 2) = fun p => (a p - b p) ^ 2 :=
    funext fun p => by ring
  rw [h]

lemma stateEuclid_self (a : String → ℝ) : stateEuclid a a = 0 := by
  unfold stateEuclid
  have h : (fun p => (a p - a p) ^ 2) = fun _ => (0 : ℝ) :=
    funext fun p => by ring
  rw [h]
  simp

/-- Claim C7: for all registered canonical states, the distance calculator is
symmetric in magnitude — distance(A,B) = distance(B,A) — distance(A,A) = 0,
and per-axis signed differences are second minus first. -/
theorem state_distance_symm_and_diag (aId bId : String) (A B : String → ℝ)
    (ha : DISPLAY_STATE_COORDINATES.lookup aId = some A)
    (hb : DISPLAY_STATE_COORDINATES.lookup bId = some B) :
    compute_display_state_distance aId bId =
        some (round4 (stateEuclid A B),
          DISPLAY_PARAMETER_NAMES.map fun p => (p, round4 (B p - A p))) ∧
      round4 (stateEuclid A B) = round4 (stateEuclid B A) ∧
      compute_display_state_distance aId aId =
        some (0, DISPLAY_PARAMETER_NAMES.map fun p => (p, (0 : ℝ))) := by
  refine ⟨?_, ?_, ?_⟩
  · simp [compute_display_state_distance, ha, hb, stateDiffs]
  · rw [stateEuclid_comm]
  · have hdiag : stateDiffs A A = DISPLAY_PARAMETER_NAMES.map fun p => (p, (0 : ℝ)) := by
      unfold stateDiffs
      have h : (fun p => (p, round4 (A p - A p))) =
          fun p : String => (p, (0 : ℝ)) :=
        funext fun p => by rw [sub_self, round4_zero]
      rw [h]
    simp [compute_display_state_distance, ha, stateEuclid_self, round4_zero, hdiag]

/-- Witness for C7 at the registered pair
(`luxury_isolation`, `theatrical_drama`). -/
theorem state_distance_symm_and_diag_witness :
    DISPLAY_STATE_COORDINATES.lookup "luxury_isolation" = some luxury_isolation ∧
    DISPLAY_STATE_COORDINATES.lookup "theatrical_drama" = some theatrical_drama ∧
    (compute_display_state_distance "luxury_isolation" "theatrical_drama" =
        some (round4 (stateEuclid luxury_isolation theatrical_drama),
          DISPLAY_PARAMETER_NAMES.map fun p =>
            (p, round4 (theatrical_drama p - luxury_isolation p))) ∧
      round4 (stateEuclid luxury_isolation theatrical_drama) =
        round4 (stateEuclid theatrical_drama luxury_isolation) ∧
      compute_display_state_distance "luxury_isolation" "luxury_isolation" =
        some (0, DISPLAY_PARAMETER_NAMES.map fun p => (p, (0 : ℝ)))) :=
  ⟨rfl, rfl,
    state_distance_symm_and_diag "luxury_isolation" "theatrical_drama"
      luxury_isolation theatrical_drama rfl rfl⟩

/-- Keyframe index selection of `generate_display_attractor_prompt`
(server.py lines 1158-1160): `step_size = max(1, total // keyframe_count)`;
`indices = [min(i * step_size, total - 1) for i in range(keyframe_count)]`. -/
def keyframeIndices (total kc : ℕ) : List ℕ :=
  (List.range kc).map fun i => min (i * max 1 (total / kc)) (total - 1)

/-- The keyframe extraction loop (server.py lines 1162-1164): the trajectory
point at each selected index, in order.  `List.get?` models Python list
indexing, which would fail out of bounds. -/
def sampleKeyframes {α : Type} (traj : List α) (kc : ℕ) : List (Option α) :=
  (keyframeIndices traj.length kc).map fun idx => traj.get? idx

/-- Claim C5: for every trajectory length L ≥ 1 and positive keyframe_count,
the sampled indices are `min(i * max(1, L / kc), L - 1)` for `i < kc`, in
order; every index is in bounds so sampling the trajectory never fails; a
24-point trajectory sampled for 4 keyframes yields `[0, 6, 12, 18]`; and when
`kc` exceeds L the trailing indices all clamp to `L - 1` (duplicates, not an
error). -/
theorem keyframe_sampling_spec (L kc : ℕ) (hL : 1 ≤ L) (hk : 1 ≤ kc) :
    (keyframeIndices L kc).length = kc ∧
      (∀ i (hi : i < (keyframeIndices L kc).length),
        (keyframeIndices L kc).get ⟨i, hi⟩ = min (i * max 1 (L / kc)) (L - 1)) ∧
      keyframeIndices 24 4 = [0, 6, 12, 18] ∧
      (L < kc → ∀ i (hi : i < (keyframeIndices L kc).length),
        L - 1 ≤ i → (keyframeIndices L kc).get ⟨i, hi⟩ = L - 1) ∧
      (∀ (traj : List (List (String × ℝ))), traj.length = L →
        ∀ x ∈ sampleKeyframes traj kc, x.isSome = true) := by
  refine ⟨by simp [keyframeIndices], ?_, by decide, ?_, ?_⟩
  · intro i hi
    simp [keyframeIndices]
  · intro hLk i hi hLe
    have hdiv : L / kc = 0 := Nat.div_eq_of_lt hLk
    simp only [keyframeIndices, List.get_eq_getElem, List.getElem_map,
      List.getElem_range, hdiv]
    have h1 : max 1 0 = 1 := rfl
    rw [h1, Nat.mul_one]
    exact Nat.min_eq_right (by omega)
  · intro traj htlen x hx
    simp only [sampleKeyframes, List.mem_map] at hx
    obtain ⟨idx, hidx, rfl⟩ := hx
    have hbound : idx ≤ L - 1 := by
      simp only [keyframeIndices, htlen, List.mem_map, List.mem_range] at hidx
      obtain ⟨i, _, rfl⟩ := hidx
      exact Nat.min_le_right _ _
    rw [List.get?_eq_getElem?, List.getElem?_eq_getElem (by omega)]
    rfl

/-- Witness for C5 at a 24-point trajectory and 4 requested keyframes. -/
theorem keyframe_sampling_spec_witness :
    1 ≤ 24 ∧ 1 ≤ 4 ∧
      ((keyframeIndices 24 4).length = 4 ∧
        (∀ i (hi : i < (keyframeIndices 24 4).length),
          (keyframeIndices 24 4).get ⟨i, hi⟩ = min (i * max 1 (24 / 4)) (24 - 1)) ∧
        keyframeIndices 24 4 = [0, 6, 12, 18] ∧
        (24 < 4 → ∀ i (hi : i < (keyframeIndices 24 4).length),
          24 - 1 ≤ i → (keyframeIndices 24 4).get ⟨i, hi⟩ = 24 - 1) ∧
        (∀ (traj : List (List (String × ℝ))), traj.length = 24 →
          ∀ x ∈ sampleKeyframes traj 4, x.isSome = true)) :=
  ⟨by decide, by decide, keyframe_sampling_spec 24 4 (by decide) (by decide)⟩

/-- One element of the tool's `sequence` list (server.py lines 1013-1017):
step index, phase rounded to 4 decimals, and the interpolated state. -/
structure SeqEntry where
  step : ℕ
  phase : ℝ
  state : List (String × ℝ)

/-- The success payload of `generate_display_rhythmic_sequence`, restricted to
the computed fields the claims are about (server.py lines 1019-1031; the
remaining JSON fields echo the inputs verbatim). -/
structure SeqResult where
  total_steps : ℤ
  sequence : List SeqEntry

/-- Outcome of a tool call: a structured error object or a success payload. -/
inductive SeqOutcome where
  | err : String → SeqOutcome
  | ok : SeqResult → SeqOutcome

def SeqOutcome.isOk : SeqOutcome → Bool
  | .err _ => false
  | .ok _ => true

/-- Python `int(x)` on a float: truncation toward zero. -/
noncomputable def pyInt (x : ℝ) : ℤ := if 0 ≤ x then ⌊x⌋ else ⌈x⌉

/-- Python `xs[k:] + xs[:k]` for an arbitrary integer `k` (server.py line
1006): for `k ≥ 0` both slices clamp at the list length; for `k < 0` Python
slices count from the end, i.e. the cut point is `max 0 (len + k)`. -/
def pySliceRotate {α : Type} (k : ℤ) (xs : List α) : List α :=
  xs.drop (if 0 ≤ k then k else (xs.length : ℤ) + k).toNat ++
    xs.take (if 0 ≤ k then k else (xs.length : ℤ) + k).toNat

/-- Plain cyclic left rotation by `k` positions. -/
def rotateLeft {α : Type} (k : ℕ) (xs : List α) : List α :=
  xs.drop k ++ xs.take k

/-- The sequence-building loop (server.py lines 1008-1017): for each
enumerated waveform scalar, the step index, the rounded phase, and the
interpolated state. -/
noncomputable def mkSequence (A B : String → ℝ) (alphas : List ℝ) :
    List SeqEntry :=
  alphas.enum.map fun e => ⟨e.1, round4 e.2, interpVector A B e.2⟩

/-- `generate_display_rhythmic_sequence` (server.py lines 964-1031): both
state identifiers are validated; `total_steps = num_cycles * steps_per_cycle`;
the waveform is generated, rotated only when `phase_offset > 0` (by
`int(phase_offset * steps_per_cycle)` positions via slicing), and
interpolated.  No other validation is performed. -/
noncomputable def generate_display_rhythmic_sequence (aId bId pat : String)
    (nc spc : ℤ) (po : ℝ) : SeqOutcome :=
  match DISPLAY_STATE_COORDINATES.lookup aId with
  | none => .err ("Unknown state: " ++ aId)
  | some A =>
    match DISPLAY_STATE_COORDINATES.lookup bId with
    | none => .err ("Unknown state: " ++ bId)
    | some B =>
      .ok ⟨nc * spc,
        mkSequence A B
          (if 0 < po then
            pySliceRotate (pyInt (po * (spc : ℝ)))
              (_generate_oscillation (nc * spc) (nc : ℝ) pat)
          else
            _generate_oscillation (nc * spc) (nc : ℝ) pat)⟩

/-- Claim C4 counterexample: with both states registered and
`phase_offset = 3/2` (outside [0,1)), the operation succeeds instead of
failing with `InvalidPhaseOffset` — no phase-offset validation exists
(server.py lines 1003-1006). -/
theorem phase_offset_no_validation_counterexample :
    (generate_display_rhythmic_sequence "luxury_isolation" "theatrical_drama"
        "sinusoidal" 1 2 (3 / 2)).isOk = true := rfl

/-- Claim C4, amended: the operation never fails on any `phase_offset` (no
`InvalidPhaseOffset` validation exists); for `phase_offset` inside [0,1) the
waveform sequence is cyclically rotated left by
`⌊phase_offset * steps_per_cycle⌋` positions before interpolation (a genuine
in-range rotation, the amount being less than the sequence length). -/
theorem phase_offset_rotation (aId bId pat : String) (nc spc : ℤ) (po : ℝ)
    (A B : String → ℝ)
    (ha : DISPLAY_STATE_COORDINATES.lookup aId = some A)
    (hb : DISPLAY_STATE_COORDINATES.lookup bId = some B)
    (hnc : 1 ≤ nc) (hspc : 1 ≤ spc) :
    (generate_display_rhythmic_sequence aId bId pat nc spc po).isOk = true ∧
      (0 ≤ po → po < 1 →
        generate_display_rhythmic_sequence aId bId pat nc spc po =
          .ok ⟨nc * spc,
            mkSequence A B
              (rotateLeft (⌊po * (spc : ℝ)⌋).toNat
                (_generate_oscillation (nc * spc) (nc : ℝ) pat))⟩ ∧
        (⌊po * (spc : ℝ)⌋).toNat <
          (_generate_oscillation (nc * spc) (nc : ℝ) pat).length) := by
  constructor
  · simp [generate_display_rhythmic_sequence, ha, hb, SeqOutcome.isOk]
  · intro hpo0 hpo1
    have hspcR : (0 : ℝ) < (spc : ℝ) := by exact_mod_cast hspc
    have hprod0 : 0 ≤ po * (spc : ℝ) := mul_nonneg hpo0 (le_of_lt hspcR)
    have hfl0 : 0 ≤ ⌊po * (spc : ℝ)⌋ := Int.floor_nonneg.mpr hprod0
    have hfloor_lt : ⌊po * (spc : ℝ)⌋ < spc := by
      rw [Int.floor_lt]
      calc po * (spc : ℝ) < 1 * (spc : ℝ) := by
            exact mul_lt_mul_of_pos_right hpo1 hspcR
        _ = (spc : ℝ) := one_mul _
    constructor
    · by_cases hpos : 0 < po
      · have hrot : pySliceRotate (pyInt (po * (spc : ℝ)))
            (_generate_oscillation (nc * spc) (nc : ℝ) pat) =
            rotateLeft (⌊po * (spc : ℝ)⌋).toNat
              (_generate_oscillation (nc * spc) (nc : ℝ) pat) := by
          unfold pySliceRotate rotateLeft pyInt
          rw [if_pos hprod0, if_pos hfl0]
        simp only [generate_display_rhythmic_sequence, ha, hb, if_pos hpos, hrot]
      · have hz : po = 0 := le_antisymm (not_lt.mp hpos) hpo0
        subst hz
        have hfl : (⌊(0 : ℝ) * (spc : ℝ)⌋).toNat = 0 := by
          norm_num
        simp only [generate_display_rhythmic_sequence, ha, hb,
          if_neg (lt_irrefl (0 : ℝ)), hfl, rotateLeft, List.drop_zero,
          List.take_zero, List.append_nil]
    · have hlen : (_generate_oscillation (nc * spc) (nc : ℝ) pat).length =
          (nc * spc).toNat := by
        simp [_generate_oscillation]
      rw [hlen]
      have hle : spc ≤ nc * spc := le_mul_of_one_le_left (by omega) hnc
      omega

/-- Witness for the amended C4 at `po = 1/2`, `nc = 1`, `spc = 2`. -/
theorem phase_offset_rotation_witness :
    DISPLAY_STATE_COORDINATES.lookup "luxury_isolation" = some luxury_isolation ∧
    DISPLAY_STATE_COORDINATES.lookup "theatrical_drama" = some theatrical_drama ∧
    (1 : ℤ) ≤ 1 ∧ (1 : ℤ) ≤ 2 ∧
    ((generate_display_rhythmic_sequence "luxury_isolation" "theatrical_drama"
        "square" 1 2 (1 / 2)).isOk = true ∧
      (0 ≤ (1 / 2 : ℝ) → (1 / 2 : ℝ) < 1 →
        generate_display_rhythmic_sequence "luxury_isolation" "theatrical_drama"
            "square" 1 2 (1 / 2) =
          .ok ⟨1 * 2,
            mkSequence luxury_isolation theatrical_drama
              (rotateLeft (⌊(1 / 2 : ℝ) * ((2 : ℤ) : ℝ)⌋).toNat
                (_generate_oscillation (1 * 2) ((1 : ℤ) : ℝ) "square"))⟩ ∧
        (⌊(1 / 2 : ℝ) * ((2 : ℤ) : ℝ)⌋).toNat <
          (_generate_oscillation (1 * 2) ((1 : ℤ) : ℝ) "square").length)) :=
  ⟨rfl, rfl, by decide, by decide,
    phase_offset_rotation "luxury_isolation" "theatrical_drama" "square" 1 2
      (1 / 2) luxury_isolation theatrical_drama rfl rfl (by decide) (by decide)⟩

/-- Claim C8 counterexample: with `num_cycles = 0` (≤ 0) and registered
states, the operation succeeds with a zero-length sequence instead of failing
with `InvalidCycleConfig` — no cycle-configuration validation exists
(server.py lines 992-1001). -/
theorem cycle_config_no_validation_counterexample :
    generate_display_rhythmic_sequence "luxury_isolation" "theatrical_drama"
        "sinusoidal" 0 20 0 = .ok ⟨0, []⟩ := by
  have hosc : _generate_oscillation ((0 : ℤ) * 20) ((0 : ℤ) : ℝ) "sinusoidal" = [] := by
    simp [_generate_oscillation]
  simp only [generate_display_rhythmic_sequence]
  rw [show (DISPLAY_STATE_COORDINATES.lookup "luxury_isolation") =
      some luxury_isolation from rfl]
  rw [show (DISPLAY_STATE_COORDINATES.lookup "theatrical_drama") =
      some theatrical_drama from rfl]
  rw [if_neg (lt_irrefl (0 : ℝ)), hosc]
  simp [mkSequence]

/-- Claim C8, amended: no `InvalidCycleConfig` validation exists: for
registered states, whenever `num_cycles ≤ 0` or `steps_per_cycle ≤ 0` (with a
non-positive product), the call succeeds and returns a zero-length sequence as
a success payload. -/
theorem cycle_config_no_validation (aId bId pat : String) (nc spc : ℤ) (po : ℝ)
    (A B : String → ℝ)
    (ha : DISPLAY_STATE_COORDINATES.lookup aId = some A)
    (hb : DISPLAY_STATE_COORDINATES.lookup bId = some B)
    (hcfg : nc ≤ 0 ∨ spc ≤ 0) (hts : nc * spc ≤ 0) :
    generate_display_rhythmic_sequence aId bId pat nc spc po =
      .ok ⟨nc * spc, []⟩ := by
  have hosc : _generate_oscillation (nc * spc) ((nc : ℤ) : ℝ) pat = [] := by
    unfold _generate_oscillation
    rw [Int.toNat_of_nonpos hts]
    rfl
  simp only [generate_display_rhythmic_sequence, ha, hb, hosc]
  by_cases hpos : 0 < po
  · rw [if_pos hpos]
    simp [pySliceRotate, mkSequence]
  · rw [if_neg hpos]
    simp [mkSequence]

/-- Witness for the amended C8 at `num_cycles = 0`, `steps_per_cycle = 20`. -/
theorem cycle_config_no_validation_witness :
    DISPLAY_STATE_COORDINATES.lookup "luxury_isolation" = some luxury_isolation ∧
    DISPLAY_STATE_COORDINATES.lookup "editorial_minimal" = some editorial_minimal ∧
    ((0 : ℤ) ≤ 0 ∨ (20 : ℤ) ≤ 0) ∧ (0 : ℤ) * 20 ≤ 0 ∧
    generate_display_rhythmic_sequence "luxury_isolation" "editorial_minimal"
        "triangular" 0 20 (1 / 4) = .ok ⟨(0 : ℤ) * 20, []⟩ :=
  ⟨rfl, rfl, Or.inl (by decide), by decide,
    cycle_config_no_validation "luxury_isolation" "editorial_minimal"
      "triangular" 0 20 (1 / 4) luxury_isolation editorial_minimal rfl rfl
      (Or.inl (by decide)) (by decide)⟩

/-- A visual archetype of `DISPLAY_VISUAL_TYPES` (server.py lines 716-807):
coordinates (a complete dict, accessed with `.get(p, 0.5)`) and an
importance-ordered keyword list. -/
structure VisualType where
  coords : List (String × ℝ)
  keywords : List String

/-- Archetype `luxury_restraint` (server.py lines 717-734). -/
noncomputable def luxury_restraint_type : VisualType :=
  ⟨[("compositional_tension", 0.10), ("depth_complexity", 0.30),
    ("lighting_drama", 0.35), ("viewing_intimacy", 0.85),
    ("negative_space_ratio", 0.90)],
   ["single hero product in vast negative space",
    "soft directional key light with graduated shadows",
    "neutral matte backdrop",
    "precise golden-ratio placement",
    "intimate close-inspection viewing distance",
    "museum-quality isolation pedestal",
    "restrained monochromatic palette"]⟩

/-- Archetype `theatrical_grandeur` (server.py lines 735-752). -/
noncomputable def theatrical_grandeur_type : VisualType :=
  ⟨[("compositional_tension", 0.60), ("depth_complexity", 0.85),
    ("lighting_drama", 0.90), ("viewing_intimacy", 0.50),
    ("negative_space_ratio", 0.35)],
   ["dramatic three-zone depth staging foreground midground background",
    "high-contrast accent spotlights with hard-edged shadows",
    "sculptural uplighting from below at 25 degrees",
    "rich warm color temperature 3200K tungsten glow",
    "pyramidal composition rising to apex focal point",
    "theatrical curtain framing at window edges",
    "street-level pedestrian viewing geometry"]⟩

/-- Archetype `abundance_energy` (server.py lines 753-770). -/
noncomputable def abundance_energy_type : VisualType :=
  ⟨[("compositional_tension", 0.95), ("depth_complexity", 0.10),
    ("lighting_drama", 0.15), ("viewing_intimacy", 0.20),
    ("negative_space_ratio", 0.10)],
   ["dense repetitive product grid filling entire window plane",
    "flat compressed 2D graphic composition",
    "bright even shadowless ambient illumination",
    "rhythmic scanning eye movement pattern",
    "maximum visual density minimal negative space",
    "bold pop-art color saturation",
    "passing-vehicle scale legibility"]⟩

/-- Archetype `editorial_cool` (server.py lines 771-788). -/
noncomputable def editorial_cool_type : VisualType :=
  ⟨[("compositional_tension", 0.15), ("depth_complexity", 0.15),
    ("lighting_drama", 0.50), ("viewing_intimacy", 0.80),
    ("negative_space_ratio", 0.85)],
   ["minimal editorial composition with deliberate asymmetry",
    "crisp daylight-balanced cross-lighting at 5600K",
    "clean white or pale grey backdrop",
    "precise typographic-scale spatial intervals",
    "shallow depth single focal plane",
    "gallery-like negative space surrounding subject",
    "close-inspection detail-revealing perspective"]⟩

/-- Archetype `spectacle_immersion` (server.py lines 789-806). -/
noncomputable def spectacle_immersion_type : VisualType :=
  ⟨[("compositional_tension", 0.75), ("depth_complexity", 0.95),
    ("lighting_drama", 0.95), ("viewing_intimacy", 0.45),
    ("negative_space_ratio", 0.25)],
   ["radial composition emanating from luminous center",
    "forced-perspective exaggerated depth staging",
    "theatrical uplighting creating monumental scale",
    "warm-to-cool color temperature gradient",
    "immersive wraparound environmental staging",
    "dynamic outward-from-center eye movement",
    "multiple overlapping depth planes"]⟩

/-- `DISPLAY_VISUAL_TYPES` (server.py lines 716-807), as an association list
in the source's insertion order — iteration order is significant for
tie-breaking. -/
noncomputable def DISPLAY_VISUAL_TYPES : List (String × VisualType) :=
  [("luxury_restraint", luxury_restraint_type),
   ("theatrical_grandeur", theatrical_grandeur_type),
   ("abundance_energy", abundance_energy_type),
   ("editorial_cool", editorial_cool_type),
   ("spectacle_immersion", spectacle_immersion_type)]

/-- Python `d.get(p, 0.5)` on a coordinate dict. -/
noncomputable def dictGet (d : List (String × ℝ)) (p : String) : ℝ :=
  (d.lookup p).getD 0.5

/-- The Euclidean distance of `_extract_visual_vocabulary` (server.py lines
879-883): `sqrt` of the summed squared per-axis differences, with missing
axes defaulting to 0.5 on either side. -/
noncomputable def nnDistance (state coords : List (String × ℝ)) : ℝ :=
  Real.sqrt
    ((DISPLAY_PARAMETER_NAMES.map fun p => (dictGet state p - dictGet coords p) ^ 2).sum)

lemma nnDistance_nonneg (state coords : List (String × ℝ)) :
    0 ≤ nnDistance state coords := Real.sqrt_nonneg _

lemma nnDistance_self (c : List (String × ℝ)) : nnDistance c c = 0 := by
  unfold nnDistance
  have h : (fun p => (dictGet c p - dictGet c p) ^ 2) = fun _ : String => (0 : ℝ) :=
    funext fun p => by ring
  rw [h]
  simp

/-- One iteration of the nearest-neighbor loop (server.py lines 877-886):
the running best is replaced only when the new distance is strictly
smaller; the initial accumulator `none` models
`min_dist = inf, nearest_type = None`, which the first entry always
replaces. -/
noncomputable def nnStep (state : List (String × ℝ))
    (acc : Option (String × ℝ)) (e : String × VisualType) : Option (String × ℝ) :=
  match acc with
  | none => some (e.1, nnDistance state e.2.coords)
  | some b =>
    if nnDistance state e.2.coords < b.2 then some (e.1, nnDistance state e.2.coords)
    else some b

/-- The full nearest-neighbor search loop (server.py lines 874-886). -/
noncomputable def nnSelect (state : List (String × ℝ)) : Option (String × ℝ) :=
  DISPLAY_VISUAL_TYPES.foldl (nnStep state) none

/-- The result record of `_extract_visual_vocabulary` (server.py lines
898-904). -/
structure VocabResult where
  nearest_type : String
  distance : ℝ
  keywords : List String
  strength : ℝ
  state : List (String × ℝ)

/-- `_extract_visual_vocabulary(state, strength)` (server.py lines 859-904).
`none` models the `KeyError` that `DISPLAY_VISUAL_TYPES[nearest_type]` would
raise were the loop to leave `nearest_type` unset (`None`). -/
noncomputable def _extract_visual_vocabulary (state : List (String × ℝ))
    (strength : ℝ) : Option VocabResult :=
  match nnSelect state with
  | none => none
  | some nd =>
    match DISPLAY_VISUAL_TYPES.lookup nd.1 with
    | none => none
    | some tdef =>
      some ⟨nd.1, round4 nd.2,
        if strength < 0.2 then tdef.keywords.take 3
        else if strength < 0.5 then tdef.keywords.take 5
        else tdef.keywords,
        strength, state⟩

lemma nnFold_some (state : List (String × ℝ)) (l : List (String × VisualType)) :
    ∀ b : String × ℝ,
      (l.foldl (nnStep state) (some b) = some b ∧
        ∀ e ∈ l, b.2 ≤ nnDistance state e.2.coords) ∨
      (∃ pre e post, l = pre ++ e :: post ∧
        l.foldl (nnStep state) (some b) = some (e.1, nnDistance state e.2.coords) ∧
        nnDistance state e.2.coords < b.2 ∧
        (∀ q ∈ pre, nnDistance state e.2.coords < nnDistance state q.2.coords) ∧
        (∀ q ∈ post, nnDistance state e.2.coords ≤ nnDistance state q.2.coords)) := by
  induction l with
  | nil => intro b; exact Or.inl ⟨rfl, by simp⟩
  | cons a t ih =>
    intro b
    rw [List.foldl_cons]
    by_cases hab : nnDistance state a.2.coords < b.2
    · have hstep : nnStep state (some b) a = some (a.1, nnDistance state a.2.coords) := by
        simp [nnStep, if_pos hab]
      rw [hstep]
      rcases ih (a.1, nnDistance state a.2.coords) with
        ⟨hf, hall⟩ | ⟨pre, e, post, hdec, hf, hlt, hpre, hpost⟩
      · exact Or.inr ⟨[], a, t, rfl, hf, hab, by simp, hall⟩
      · refine Or.inr ⟨a :: pre, e, post, by rw [hdec, List.cons_append], hf, lt_trans hlt hab, ?_, hpost⟩
        intro q hq
        rcases List.mem_cons.mp hq with rfl | hq2
        · exact hlt
        · exact hpre q hq2
    · have hstep : nnStep state (some b) a = some b := by
        simp [nnStep, if_neg hab]
      rw [hstep]
      rcases ih b with ⟨hf, hall⟩ | ⟨pre, e, post, hdec, hf, hlt, hpre, hpost⟩
      · refine Or.inl ⟨hf, ?_⟩
        intro q hq
        rcases List.mem_cons.mp hq with rfl | hq2
        · exact not_lt.mp hab
        · exact hall q hq2
      · refine Or.inr ⟨a :: pre, e, post, by rw [hdec, List.cons_append], hf, hlt, ?_, hpost⟩
        intro q hq
        rcases List.mem_cons.mp hq with rfl | hq2
        · exact lt_of_lt_of_le hlt (not_lt.mp hab)
        · exact hpre q hq2

lemma nnFold_top (state : List (String × ℝ)) (a : String × VisualType)
    (t : List (String × VisualType)) :
    ∃ pre e post, a :: t = pre ++ e :: post ∧
      (a :: t).foldl (nnStep state) none = some (e.1, nnDistance state e.2.coords) ∧
      (∀ q ∈ pre, nnDistance state e.2.coords < nnDistance state q.2.coords) ∧
      (∀ q ∈ post, nnDistance state e.2.coords ≤ nnDistance state q.2.coords) := by
  rw [List.foldl_cons]
  have hstep : nnStep state none a = some (a.1, nnDistance state a.2.coords) := rfl
  rw [hstep]
  rcases nnFold_some state t (a.1, nnDistance state a.2.coords) with
    ⟨hf, hall⟩ | ⟨pre, e, post, hdec, hf, hlt, hpre, hpost⟩
  · exact ⟨[], a, t, rfl, hf, by simp, hall⟩
  · refine ⟨a :: pre, e, post, by rw [hdec, List.cons_append], hf, ?_, hpost⟩
    intro q hq
    rcases List.mem_cons.mp hq with rfl | hq2
    · exact hlt
    · exact hpre q hq2

/-- The loop over the registry always selects a first-encountered minimum:
the selected entry is strictly closer than every entry before it and at least
as close as every entry after it. -/
lemma nnSelect_decomp (state : List (String × ℝ)) :
    ∃ pre e post, DISPLAY_VISUAL_TYPES = pre ++ e :: post ∧
      nnSelect state = some (e.1, nnDistance state e.2.coords) ∧
      (∀ q ∈ pre, nnDistance state e.2.coords < nnDistance state q.2.coords) ∧
      (∀ q ∈ post, nnDistance state e.2.coords ≤ nnDistance state q.2.coords) :=
  nnFold_top state ("luxury_restraint", luxury_restraint_type)
    [("theatrical_grandeur", theatrical_grandeur_type),
     ("abundance_energy", abundance_energy_type),
     ("editorial_cool", editorial_cool_type),
     ("spectacle_immersion", spectacle_immersion_type)]

lemma lookup_append_cons {β : Type} :
    ∀ (pre post : List (String × β)) (n : String) (v : β),
      (∀ q ∈ pre, q.1 ≠ n) → (pre ++ (n, v) :: post).lookup n = some v
  | [], _, n, v, _ => by simp
  | (k, w) :: t, post, n, v, h => by
    have hne : (n == k) = false :=
      beq_eq_false_iff_ne.mpr
        (Ne.symm (h (k, w) (List.mem_cons_self (k, w) t)))
    rw [List.cons_append, List.lookup_cons, hne]
    exact lookup_append_cons t post n v fun q hq => h q (List.mem_cons_of_mem _ hq)

lemma visual_types_keys_nodup : (DISPLAY_VISUAL_TYPES.map Prod.fst).Nodup := by
  have h : DISPLAY_VISUAL_TYPES.map Prod.fst =
      ["luxury_restraint", "theatrical_grandeur", "abundance_energy",
       "editorial_cool", "spectacle_immersion"] := rfl
  rw [h]
  decide

lemma decomp_pre_keys {β : Type} (pre post : List (String × β)) (e : String × β)
    (hnd : ((pre ++ e :: post).map Prod.fst).Nodup) :
    ∀ q ∈ pre, q.1 ≠ e.1 := by
  intro q hq hqe
  rw [List.map_append] at hnd
  rcases List.nodup_append.mp hnd with ⟨-, -, hdisj⟩
  exact hdisj (List.mem_map_of_mem Prod.fst hq)
    (by rw [hqe]; simp)

/-- The computed shape of `_extract_visual_vocabulary`: a first-encountered
minimum-distance archetype is always selected, its registry lookup succeeds,
and the result carries the rounded distance and the strength-sliced
keywords. -/
lemma extract_eq (state : List (String × ℝ)) (strength : ℝ) :
    ∃ pre e post, DISPLAY_VISUAL_TYPES = pre ++ e :: post ∧
      DISPLAY_VISUAL_TYPES.lookup e.1 = some e.2 ∧
      nnSelect state = some (e.1, nnDistance state e.2.coords) ∧
      _extract_visual_vocabulary state strength =
        some ⟨e.1, round4 (nnDistance state e.2.coords),
          if strength < 0.2 then e.2.keywords.take 3
          else if strength < 0.5 then e.2.keywords.take 5
          else e.2.keywords, strength, state⟩ ∧
      (∀ q ∈ pre, nnDistance state e.2.coords < nnDistance state q.2.coords) ∧
      (∀ q ∈ post, nnDistance state e.2.coords ≤ nnDistance state q.2.coords) := by
  obtain ⟨pre, e, post, hdec, hsel, hpre, hpost⟩ := nnSelect_decomp state
  have hkeys : ∀ q ∈ pre, q.1 ≠ e.1 :=
    decomp_pre_keys pre post e (by rw [← hdec]; exact visual_types_keys_nodup)
  have hlk : DISPLAY_VISUAL_TYPES.lookup e.1 = some e.2 := by
    rw [hdec]
    exact lookup_append_cons pre post e.1 e.2 hkeys
  refine ⟨pre, e, post, hdec, hlk, hsel, ?_, hpre, hpost⟩
  simp only [_extract_visual_vocabulary, hsel, hlk]

/-- Claim C10: for every input state dictionary and every strength, the
vocabulary extraction always selects an archetype of the registry — the
registry lookup of the selected name succeeds — and produces a result with a
name, a distance, and a keyword slice of that archetype. -/
theorem vocabulary_always_produced (state : List (String × ℝ)) (strength : ℝ) :
    ∃ r tdef, _extract_visual_vocabulary state strength = some r ∧
      DISPLAY_VISUAL_TYPES.lookup r.nearest_type = some tdef ∧
      r.distance = round4 (nnDistance state tdef.coords) ∧
      (r.keywords = tdef.keywords.take 3 ∨ r.keywords = tdef.keywords.take 5 ∨
        r.keywords = tdef.keywords) := by
  obtain ⟨pre, e, post, hdec, hlk, hsel, hex, hpre, hpost⟩ := extract_eq state strength
  refine ⟨_, e.2, hex, hlk, rfl, ?_⟩
  by_cases h1 : strength < 0.2
  · rw [if_pos h1]; exact Or.inl rfl
  · rw [if_neg h1]
    by_cases h2 : strength < 0.5
    · rw [if_pos h2]; exact Or.inr (Or.inl rfl)
    · rw [if_neg h2]; exact Or.inr (Or.inr rfl)

/-- The explicit completion of a partial input state: every recognized axis
bound to `dict.get(p, 0.5)`, i.e. missing axes filled with the neutral
default 0.5. -/
noncomputable def fillDefaults (state : List (String × ℝ)) : List (String × ℝ) :=
  DISPLAY_PARAMETER_NAMES.map fun p => (p, dictGet state p)

lemma dictGet_fillDefaults (state : List (String × ℝ)) (p : String)
    (hp : p ∈ DISPLAY_PARAMETER_NAMES) :
    dictGet (fillDefaults state) p = dictGet state p := by
  simp only [DISPLAY_PARAMETER_NAMES, List.mem_cons, List.not_mem_nil, or_false] at hp
  rcases hp with rfl | rfl | rfl | rfl | rfl <;> rfl

lemma nnDistance_fillDefaults (state coords : List (String × ℝ)) :
    nnDistance (fillDefaults state) coords = nnDistance state coords := rfl

lemma nnSelect_fillDefaults (state : List (String × ℝ)) :
    nnSelect (fillDefaults state) = nnSelect state := rfl

/-- Claim C9: for every input state (in particular one missing some of the
five recognized axes) the computation does not fail, and each missing axis is
treated as the neutral default 0.5: the classification fields agree with
those obtained from the explicitly 0.5-completed state. -/
theorem missing_axes_defaulted (state : List (String × ℝ)) (strength : ℝ) :
    ∃ r r0, _extract_visual_vocabulary state strength = some r ∧
      _extract_visual_vocabulary (fillDefaults state) strength = some r0 ∧
      r0.nearest_type = r.nearest_type ∧ r0.distance = r.distance ∧
      r0.keywords = r.keywords ∧ r0.strength = r.strength := by
  obtain ⟨pre, e, post, hdec, hlk, hsel, hex, hpre, hpost⟩ := extract_eq state strength
  have hself : nnSelect (fillDefaults state) =
      some (e.1, nnDistance state e.2.coords) := by
    rw [nnSelect_fillDefaults]
    exact hsel
  refine ⟨⟨e.1, round4 (nnDistance state e.2.coords),
      if strength < 0.2 then e.2.keywords.take 3
      else if strength < 0.5 then e.2.keywords.take 5
      else e.2.keywords, strength, state⟩,
    ⟨e.1, round4 (nnDistance state e.2.coords),
      if strength < 0.2 then e.2.keywords.take 3
      else if strength < 0.5 then e.2.keywords.take 5
      else e.2.keywords, strength, fillDefaults state⟩,
    hex, ?_, rfl, rfl, rfl, rfl⟩
  simp only [_extract_visual_vocabulary, hself, hlk]

lemma nnSelect_luxury :
    nnSelect luxury_restraint_type.coords = some ("luxury_restraint", 0) := by
  have h0 : nnDistance luxury_restraint_type.coords luxury_restraint_type.coords = 0 :=
    nnDistance_self _
  have hstep0 : nnStep luxury_restraint_type.coords none
      ("luxury_restraint", luxury_restraint_type) = some ("luxury_restraint", 0) := by
    simp only [nnStep]
    rw [h0]
  have hkeep : ∀ e : String × VisualType,
      nnStep luxury_restraint_type.coords (some ("luxury_restraint", 0)) e =
        some ("luxury_restraint", 0) := by
    intro e
    simp only [nnStep]
    rw [if_neg (not_lt.mpr (nnDistance_nonneg _ _))]
  show List.foldl (nnStep luxury_restraint_type.coords) none
      [("luxury_restraint", luxury_restraint_type),
       ("theatrical_grandeur", theatrical_grandeur_type),
       ("abundance_energy", abundance_energy_type),
       ("editorial_cool", editorial_cool_type),
       ("spectacle_immersion", spectacle_immersion_type)] =
    some ("luxury_restraint", 0)
  rw [List.foldl_cons, hstep0, List.foldl_cons, hkeep, List.foldl_cons, hkeep,
    List.foldl_cons, hkeep, List.foldl_cons, hkeep, List.foldl_nil]

lemma extract_luxury :
    _extract_visual_vocabulary luxury_restraint_type.coords 1 =
      some ⟨"luxury_restraint", 0, luxury_restraint_type.keywords, 1,
        luxury_restraint_type.coords⟩ := by
  have hlk : DISPLAY_VISUAL_TYPES.lookup "luxury_restraint" =
      some luxury_restraint_type := rfl
  simp only [_extract_visual_vocabulary, nnSelect_luxury, hlk]
  rw [if_neg (by norm_num : ¬ (1 : ℝ) < 0.2),
    if_neg (by norm_num : ¬ (1 : ℝ) < 0.5), round4_zero]

/-- Claim C6: for every input state and strength, the mapper selects the
archetype at minimum Euclidean distance, resolving ties to the first
archetype in registry iteration order (every strictly earlier entry is
strictly farther), reports the distance rounded to 4 decimals, and slices
keywords by strength (first 3 below 0.2, first 5 below 0.5, full list
otherwise); moreover at the exact coordinates of archetype
`luxury_restraint` it returns that archetype with distance 0. -/
theorem nearest_neighbor_vocabulary (state : List (String × ℝ)) (strength : ℝ) :
    (∃ pre e post, DISPLAY_VISUAL_TYPES = pre ++ e :: post ∧
      DISPLAY_VISUAL_TYPES.lookup e.1 = some e.2 ∧
      (∀ q ∈ DISPLAY_VISUAL_TYPES,
        nnDistance state e.2.coords ≤ nnDistance state q.2.coords) ∧
      (∀ q ∈ pre, nnDistance state e.2.coords < nnDistance state q.2.coords) ∧
      _extract_visual_vocabulary state strength =
        some ⟨e.1, round4 (nnDistance state e.2.coords),
          if strength < 0.2 then e.2.keywords.take 3
          else if strength < 0.5 then e.2.keywords.take 5
          else e.2.keywords, strength, state⟩) ∧
    _extract_visual_vocabulary luxury_restraint_type.coords 1 =
      some ⟨"luxury_restraint", 0, luxury_restraint_type.keywords, 1,
        luxury_restraint_type.coords⟩ := by
  refine ⟨?_, extract_luxury⟩
  obtain ⟨pre, e, post, hdec, hlk, hsel, hex, hpre, hpost⟩ := extract_eq state strength
  refine ⟨pre, e, post, hdec, hlk, ?_, hpre, hex⟩
  intro q hq
  rw [hdec] at hq
  rcases List.mem_append.mp hq with hq1 | hq2
  · exact le_of_lt (hpre q hq1)
  · rcases List.mem_cons.mp hq2 with rfl | hq3
    · exact le_refl _
    · exact hpost q hq3

end WindowDisplay
